import Mathlib

/-!
Verification of the prompt-processing module of ImageDream
(`threestudio/models/prompt.py`).

The module is shallowly embedded: strings are Lean `String`s (operated on
through their character lists so that everything reduces), angles and
camera distances are rationals, batched tensors are lists, and the
external text encoder is a parameter `enc : String → E` mapping each
prompt string to one embedding row, per the module's collaborator
contract.  Fallible operations (`ValueError`, tensor gathers) return
`Except`/`Option`.
-/

namespace ImageDream

/-! ## String primitives (faithful to the Python string operations used) -/

/-- Character-wise ASCII lower-casing, as Python `str.lower()` on the
ASCII prompts this module handles. -/
def strLower (s : String) : String :=
  String.mk (s.data.map Char.toLower)

/-- Python `s[n:]`: drop the first `n` characters. -/
def strDrop (s : String) (n : Nat) : String :=
  String.mk (s.data.drop n)

/-- Python `s.startswith(p)`. -/
def strStartsWith (s p : String) : Bool :=
  p.data.isPrefixOf s.data

/-- Split a character list on a separator character; Python
`str.split(sep)` for a one-character separator (empty input gives one
empty field, adjacent separators give empty fields). -/
def splitChar (sep : Char) : List Char → List (List Char)
  | [] => [[]]
  | c :: cs =>
      let r := splitChar sep cs
      if c == sep then [] :: r
      else
        match r with
        | [] => [[c]]
        | w :: ws => (c :: w) :: ws

/-- Python `s.split("_")`. -/
def strSplitUnderscore (s : String) : List String :=
  (splitChar (Char.ofNat 95) s.data).map String.mk

/-- Does `sub` occur as a contiguous sublist of the second argument?
Python `sub in hay` for strings. -/
def listContainsSub (sub : List Char) : List Char → Bool
  | [] => sub.isEmpty
  | c :: cs => sub.isPrefixOf (c :: cs) || listContainsSub sub cs

/-- Python `sub in hay` (substring containment). -/
def strContainsSub (hay sub : String) : Bool :=
  listContainsSub sub.data hay.data

/-! ## Data model -/

/-- `PromptProcessor.Config` (`prompt.py` lines 17-26); tensor-unrelated
fields only — the pretrained-model path never influences the logic
modelled here.  Angles are rationals standing for the float degrees. -/
structure Config where
  prompt : String := "a hamburger"
  negative_prompt : String := ""
  view_dependent_prompting : Bool := true
  overhead_threshold : ℚ := 60
  front_threshold : ℚ := 45
  back_threshold : ℚ := 45
  view_dependent_prompt_front : Bool := false
deriving Repr, DecidableEq

/-- `DirectionConfig` (`prompt.py` lines 39-47).  The condition takes
per-sample elevation, azimuth and camera distance — the Python lambdas
operate element-wise on the batch tensors. -/
structure DirectionConfig where
  name : String
  prompt : String
  negative_prompt : String
  condition : ℚ → ℚ → ℚ → Bool

/-- The front-aware direction table (`prompt.py` lines 68-95),
fragments `"<dir> view of "` and the four ordered conditions. -/
def directionsFront (cfg : Config) : List DirectionConfig :=
  [ ⟨"side", "side view of ", "", fun _ _ _ => true⟩,
    ⟨"front", "front view of ", "",
      fun _ azi _ => decide (-cfg.front_threshold < azi) &&
        decide (azi < cfg.front_threshold)⟩,
    ⟨"back", "backside view of ", "",
      fun _ azi _ => decide (180 - cfg.back_threshold < azi) ||
        decide (azi < -180 + cfg.back_threshold)⟩,
    ⟨"overhead", "overhead view of ", "",
      fun ele _ _ => decide (cfg.overhead_threshold < ele)⟩ ]

/-- The suffix-style direction table (`prompt.py` lines 108-135),
fragments `", <dir> view"` with the same four conditions. -/
def directionsSide (cfg : Config) : List DirectionConfig :=
  [ ⟨"side", ", side view", "", fun _ _ _ => true⟩,
    ⟨"front", ", front view", "",
      fun _ azi _ => decide (-cfg.front_threshold < azi) &&
        decide (azi < cfg.front_threshold)⟩,
    ⟨"back", ", back view", "",
      fun _ azi _ => decide (180 - cfg.back_threshold < azi) ||
        decide (azi < -180 + cfg.back_threshold)⟩,
    ⟨"overhead", ", overhead view", "",
      fun ele _ _ => decide (cfg.overhead_threshold < ele)⟩ ]

/-- `{d.name: i for i, d in enumerate(...)}` (`prompt.py` lines 96, 136),
kept as an association list. -/
def mkDirection2idx (dirs : List DirectionConfig) : List (String × Nat) :=
  dirs.enum.map fun p => (p.2.name, p.1)

/-- Python dict lookup `m[k]` on the association list; `none` models a
`KeyError`. -/
def dictLookup (m : List (String × Nat)) (k : String) : Option Nat :=
  (m.find? fun p => p.1 == k).map Prod.snd

/-! ## Prompt resolver (`preprocess_prompt`, `prompt.py` lines 150-168) -/

/-- The candidate scan loop of `preprocess_prompt`: walk the library in
order tracking the current unique match; a second match raises
`ValueError` immediately.  Error text formatting is elided to fixed
messages. -/
def scanLibrary (keywords : List String) :
    List String → Option String → Except String (Option String)
  | [], cand => Except.ok cand
  | p :: ps, cand =>
      if keywords.all (fun k => strContainsSub (strLower p) k) then
        match cand with
        | some _ =>
            Except.error "Multiple prompts matched with keywords in library"
        | none => scanLibrary keywords ps (some p)
      else scanLibrary keywords ps cand

/-- `PromptProcessor.preprocess_prompt`, with the library's
`"dreamfusion"` candidate list passed in (the JSON file load is outside
the embedded logic). -/
def preprocess_prompt (library : List String) (prompt : String) :
    Except String String :=
  if strStartsWith prompt "lib:" then
    let keywords := strSplitUnderscore (strLower (strDrop prompt 4))
    match scanLibrary keywords library none with
    | Except.error e => Except.error e
    | Except.ok none =>
        Except.error "Cannot find prompt with keywords in library"
    | Except.ok (some c) => Except.ok c
  else
    Except.ok prompt

/-! ## Configuration (`configure`, `prompt.py` lines 36-148) -/

/-- Modelled from the spec: the external text-encoder collaborator
(`get_text_embeddings` is abstract in `PromptProcessor`; its contract is
"given a list of strings, return a fixed-shape numeric embedding tensor
per string").  `enc : String → E` gives the row for one string, and a
batch encodes element-wise. -/
def get_text_embeddings {E : Type} (enc : String → E)
    (prompt negative_prompt : List String) : List E × List E :=
  (prompt.map enc, negative_prompt.map enc)

/-- The state `configure` leaves on the processor object: resolved
prompts, base embeddings, direction table, name-to-index dict and the
per-direction embedding rows. -/
structure ProcessorState (E : Type) where
  cfg : Config
  prompt : String
  negative_prompt : String
  text_embeddings : E
  uncond_text_embeddings : E
  directions : List DirectionConfig
  direction2idx : List (String × Nat)
  text_embeddings_vd : List E
  uncond_text_embeddings_vd : List E

/-- The state built by `configure` once the prompt has been resolved to
`resolved`.  Mirrors `prompt.py` lines 54-146: the negative prompt is
taken verbatim from the config (line 56); in the front-aware branch the
view-dependent prompts interpolate the raw `self.cfg.prompt` /
`self.cfg.negative_prompt` (lines 101-105), while the suffix branch
interpolates the resolved `self.prompt` / `self.negative_prompt`
(lines 141-145). -/
def buildState {E : Type} (enc : String → E) (cfg : Config)
    (resolved : String) : ProcessorState E :=
  let negative_prompt := cfg.negative_prompt
  let base := get_text_embeddings enc [resolved] [negative_prompt]
  if cfg.view_dependent_prompt_front then
    let dirs := directionsFront cfg
    let vd := get_text_embeddings enc
      (dirs.map fun d => d.prompt ++ " " ++ cfg.prompt ++ " ")
      (dirs.map fun d => d.negative_prompt ++ " " ++ cfg.negative_prompt)
    { cfg := cfg, prompt := resolved, negative_prompt := negative_prompt,
      text_embeddings := (base.1.headD (enc resolved)),
      uncond_text_embeddings := (base.2.headD (enc negative_prompt)),
      directions := dirs, direction2idx := mkDirection2idx dirs,
      text_embeddings_vd := vd.1, uncond_text_embeddings_vd := vd.2 }
  else
    let dirs := directionsSide cfg
    let vd := get_text_embeddings enc
      (dirs.map fun d => resolved ++ " " ++ d.prompt)
      (dirs.map fun d => negative_prompt ++ " " ++ d.negative_prompt)
    { cfg := cfg, prompt := resolved, negative_prompt := negative_prompt,
      text_embeddings := (base.1.headD (enc resolved)),
      uncond_text_embeddings := (base.2.headD (enc negative_prompt)),
      directions := dirs, direction2idx := mkDirection2idx dirs,
      text_embeddings_vd := vd.1, uncond_text_embeddings_vd := vd.2 }

/-- `PromptProcessor.configure`: resolve the prompt (a failed library
lookup propagates as a configuration error), then build the immutable
state. -/
def configure {E : Type} (enc : String → E) (library : List String)
    (cfg : Config) : Except String (ProcessorState E) :=
  (preprocess_prompt library cfg.prompt).map (buildState enc cfg)

/-! ## `__call__` (`prompt.py` lines 175-202) -/

/-- Element-wise zip of the three equal-length input batches. -/
def zip3 (ele azi dis : List ℚ) : List (ℚ × ℚ × ℚ) :=
  ele.zip (azi.zip dis)

/-- One sample of the index-assignment loop (`prompt.py` lines 186-190):
start at index 0, and for each direction in table order overwrite with
`direction2idx[d.name]` when its condition holds.  A missing dict key
(`KeyError`) yields `none`. -/
def assignIdx (d2i : List (String × Nat)) (ele azi dis : ℚ) :
    List DirectionConfig → Nat → Option Nat
  | [], acc => some acc
  | d :: ds, acc =>
      if d.condition ele azi dis then
        match dictLookup d2i d.name with
        | some i => assignIdx d2i ele azi dis ds i
        | none => none
      else assignIdx d2i ele azi dis ds acc

/-- Per-sample direction index as computed inside `__call__`. -/
def sampleDirectionIdx {E : Type} (st : ProcessorState E)
    (ele azi dis : ℚ) : Option Nat :=
  assignIdx st.direction2idx ele azi dis st.directions 0

/-- Element-wise mapping that fails as soon as one element fails. -/
def mapOpt {α β : Type} (f : α → Option β) : List α → Option (List β)
  | [] => some []
  | x :: xs =>
      match f x, mapOpt f xs with
      | some y, some ys => some (y :: ys)
      | _, _ => none

/-- The batched `direction_idx` tensor of `__call__`. -/
def directionIndices {E : Type} (st : ProcessorState E)
    (samples : List (ℚ × ℚ × ℚ)) : Option (List Nat) :=
  mapOpt (fun s => sampleDirectionIdx st s.1 s.2.1 s.2.2) samples

/-- Tensor gather `rows[direction_idx]`; an out-of-range index is a
runtime error, modelled as `none`. -/
def gather {E : Type} (rows : List E) (idxs : List Nat) :
    Option (List E) :=
  mapOpt (fun i => rows[i]?) idxs

/-- The conditional block of `__call__`: the view-dependent gather
(`prompt.py` line 193), or the base embedding broadcast to the batch
size (line 196). -/
def condEmbeddings {E : Type} (st : ProcessorState E)
    (elevation azimuth camera_distances : List ℚ) : Option (List E) :=
  if st.cfg.view_dependent_prompting then
    (directionIndices st (zip3 elevation azimuth camera_distances)).bind
      (gather st.text_embeddings_vd)
  else
    some (List.replicate elevation.length st.text_embeddings)

/-- The unconditional block of `__call__` (`prompt.py` lines 194,
197-199). -/
def uncondEmbeddings {E : Type} (st : ProcessorState E)
    (elevation azimuth camera_distances : List ℚ) : Option (List E) :=
  if st.cfg.view_dependent_prompting then
    (directionIndices st (zip3 elevation azimuth camera_distances)).bind
      (gather st.uncond_text_embeddings_vd)
  else
    some (List.replicate elevation.length st.uncond_text_embeddings)

/-- `PromptProcessor.__call__`: compute both blocks and concatenate
conditional before unconditional along the batch axis
(`torch.cat([text_embeddings, uncond_text_embeddings], dim=0)`,
`prompt.py` line 202). -/
def call {E : Type} (st : ProcessorState E)
    (elevation azimuth camera_distances : List ℚ) : Option (List E) :=
  match condEmbeddings st elevation azimuth camera_distances,
        uncondEmbeddings st elevation azimuth camera_distances with
  | some t, some u => some (t ++ u)
  | _, _ => none

/-- The candidates of the library that match a keyword list: every
keyword occurs in the lower-cased candidate. -/
def libraryMatches (library : List String) (keywords : List String) :
    List String :=
  library.filter fun c => keywords.all fun k => strContainsSub (strLower c) k

/-! ## Concrete instances used to exercise the code paths

With the identity encoder `fun s => s` the stored embedding rows are the
exact strings handed to the embedding step, making the composed prompt
text observable. -/

/-- Default configuration (suffix mode, view-dependent prompting on). -/
def cfgBase : Config := {}

def stBase : ProcessorState String :=
  buildState (fun s => s) cfgBase "a hamburger"

/-- Default configuration with view-dependent prompting disabled. -/
def cfgNoVd : Config := { view_dependent_prompting := false }

def stNoVd : ProcessorState String :=
  buildState (fun s => s) cfgNoVd "a hamburger"

/-- Front-aware mode with a library-resolved prompt. -/
def cfgFrontLib : Config :=
  { prompt := "lib:burger", view_dependent_prompt_front := true }

def demoLibrary : List String := ["a hamburger"]

def stFrontLib : ProcessorState String :=
  buildState (fun s => s) cfgFrontLib "a hamburger"

/-- A library-keyed negative prompt (the prompt itself is plain). -/
def cfgNegLib : Config :=
  { prompt := "a pizza", negative_prompt := "lib:burger" }

def stNegLib : ProcessorState String :=
  buildState (fun s => s) cfgNegLib "a pizza"

/-- Positive thresholds whose front and back sectors overlap
(`front_threshold + back_threshold > 180`). -/
def cfgWide : Config := { front_threshold := 150 }

def stWide : ProcessorState String :=
  buildState (fun s => s) cfgWide "a hamburger"

/-! ## Characterization lemmas -/

/-- Closed form of the last-overwrite-wins index assignment: overhead
beats back beats front beats the always-true side default. -/
def rawDirectionIdx (cfg : Config) (ele azi : ℚ) : Nat :=
  if cfg.overhead_threshold < ele then 3
  else if 180 - cfg.back_threshold < azi ∨ azi < -180 + cfg.back_threshold then 2
  else if -cfg.front_threshold < azi ∧ azi < cfg.front_threshold then 1
  else 0

theorem buildState_cfg {E : Type} (enc : String → E) (cfg : Config)
    (p : String) : (buildState enc cfg p).cfg = cfg := by
  by_cases h : cfg.view_dependent_prompt_front <;> simp [buildState, h]

theorem buildState_prompt {E : Type} (enc : String → E) (cfg : Config)
    (p : String) : (buildState enc cfg p).prompt = p := by
  by_cases h : cfg.view_dependent_prompt_front <;> simp [buildState, h]

theorem buildState_negative_prompt {E : Type} (enc : String → E)
    (cfg : Config) (p : String) :
    (buildState enc cfg p).negative_prompt = cfg.negative_prompt := by
  by_cases h : cfg.view_dependent_prompt_front <;> simp [buildState, h]

theorem buildState_directions {E : Type} (enc : String → E) (cfg : Config)
    (p : String) :
    (buildState enc cfg p).directions =
      if cfg.view_dependent_prompt_front then directionsFront cfg
      else directionsSide cfg := by
  by_cases h : cfg.view_dependent_prompt_front <;> simp [buildState, h]

theorem buildState_direction2idx {E : Type} (enc : String → E)
    (cfg : Config) (p : String) :
    (buildState enc cfg p).direction2idx =
      [("side", 0), ("front", 1), ("back", 2), ("overhead", 3)] := by
  by_cases h : cfg.view_dependent_prompt_front <;>
    simp [buildState, h, mkDirection2idx, directionsFront, directionsSide,
      List.enum]

theorem buildState_direction_names {E : Type} (enc : String → E)
    (cfg : Config) (p : String) :
    (buildState enc cfg p).directions.map DirectionConfig.name =
      ["side", "front", "back", "overhead"] := by
  by_cases h : cfg.view_dependent_prompt_front <;>
    simp [buildState, h, directionsFront, directionsSide]

theorem buildState_vd_length {E : Type} (enc : String → E) (cfg : Config)
    (p : String) :
    (buildState enc cfg p).text_embeddings_vd.length = 4 ∧
      (buildState enc cfg p).uncond_text_embeddings_vd.length = 4 ∧
      (buildState enc cfg p).directions.length = 4 := by
  by_cases h : cfg.view_dependent_prompt_front <;>
    simp [buildState, h, get_text_embeddings, directionsFront, directionsSide]

theorem configure_ok {E : Type} {enc : String → E} {library : List String}
    {cfg : Config} {st : ProcessorState E}
    (h : configure enc library cfg = Except.ok st) :
    ∃ p, preprocess_prompt library cfg.prompt = Except.ok p ∧
      st = buildState enc cfg p := by
  unfold configure at h
  cases hp : preprocess_prompt library cfg.prompt with
  | error e => rw [hp] at h; simp [Except.map] at h
  | ok p =>
      rw [hp] at h
      simp [Except.map] at h
      exact ⟨p, rfl, h.symm⟩

/-- The per-sample index loop computes `rawDirectionIdx`, in either
direction-table mode, and never hits a missing dictionary key. -/
theorem sampleDirectionIdx_buildState {E : Type} (enc : String → E)
    (cfg : Config) (p : String) (ele azi dis : ℚ) :
    sampleDirectionIdx (buildState enc cfg p) ele azi dis =
      some (rawDirectionIdx cfg ele azi) := by
  by_cases hov : cfg.overhead_threshold < ele <;>
  by_cases hback : 180 - cfg.back_threshold < azi ∨
      azi < -180 + cfg.back_threshold <;>
  by_cases hfr1 : -cfg.front_threshold < azi <;>
  by_cases hfr2 : azi < cfg.front_threshold <;>
  by_cases hmode : cfg.view_dependent_prompt_front <;>
  simp [sampleDirectionIdx, buildState, directionsFront, directionsSide,
    assignIdx, dictLookup, mkDirection2idx, rawDirectionIdx, List.find?,
    hov, hback, hfr1, hfr2, hmode] <;>
  (try (split <;> rfl))

theorem rawDirectionIdx_lt (cfg : Config) (ele azi : ℚ) :
    rawDirectionIdx cfg ele azi < 4 := by
  unfold rawDirectionIdx
  split
  · omega
  · split
    · omega
    · split <;> omega

theorem mapOpt_some_fun {α β : Type} (g : α → β) (l : List α) :
    mapOpt (fun x => some (g x)) l = some (l.map g) := by
  induction l with
  | nil => rfl
  | cons x xs ih => simp [mapOpt, ih]

theorem mapOpt_congr {α β : Type} {f g : α → Option β} {l : List α}
    (h : ∀ x ∈ l, f x = g x) : mapOpt f l = mapOpt g l := by
  induction l with
  | nil => rfl
  | cons x xs ih =>
      simp only [mapOpt, h x (List.mem_cons_self x xs)]
      rw [ih fun y hy => h y (List.mem_cons_of_mem x hy)]

/-- The batched direction indices are the per-sample closed form mapped
over the zipped batch. -/
theorem directionIndices_buildState {E : Type} (enc : String → E)
    (cfg : Config) (p : String) (samples : List (ℚ × ℚ × ℚ)) :
    directionIndices (buildState enc cfg p) samples =
      some (samples.map fun s => rawDirectionIdx cfg s.1 s.2.1) := by
  unfold directionIndices
  rw [mapOpt_congr (g := fun s => some (rawDirectionIdx cfg s.1 s.2.1))
    fun s _ => sampleDirectionIdx_buildState enc cfg p s.1 s.2.1 s.2.2]
  exact mapOpt_some_fun _ samples

theorem gather_some {E : Type} (rows : List E) (idxs : List Nat)
    (h : ∀ i ∈ idxs, i < rows.length) :
    ∃ ys, gather rows idxs = some ys ∧ ys.length = idxs.length := by
  induction idxs with
  | nil => exact ⟨[], rfl, rfl⟩
  | cons i is ih =>
      obtain ⟨ys, hys, hlen⟩ := ih fun j hj => h j (List.mem_cons_of_mem i hj)
      have hi : i < rows.length := h i (List.mem_cons_self i is)
      refine ⟨rows[i] :: ys, ?_, by simp [hlen]⟩
      simp only [gather, mapOpt] at hys ⊢
      rw [List.getElem?_eq_getElem hi, hys]

/-- Once a candidate is held, any further match is fatal: the scan
returns the held candidate exactly when no remaining candidate
matches. -/
theorem scanLibrary_some_acc (kws : List String) (l : List String)
    (c : String) :
    (libraryMatches l kws = [] →
      scanLibrary kws l (some c) = Except.ok (some c)) ∧
    (libraryMatches l kws ≠ [] →
      scanLibrary kws l (some c) =
        Except.error "Multiple prompts matched with keywords in library") := by
  induction l with
  | nil => simp [libraryMatches, scanLibrary]
  | cons x xs ih =>
      by_cases hx : kws.all (fun k => strContainsSub (strLower x) k) <;>
        simp [libraryMatches, scanLibrary, hx] at ih ⊢
      exact ih

/-- The scan started with no candidate returns the unique match, `none`
for zero matches, and an error for two or more. -/
theorem scanLibrary_none_eq (kws : List String) (l : List String) :
    scanLibrary kws l none =
      match libraryMatches l kws with
      | [] => Except.ok none
      | [c] => Except.ok (some c)
      | _ :: _ :: _ =>
          Except.error "Multiple prompts matched with keywords in library" := by
  induction l with
  | nil => simp [libraryMatches, scanLibrary]
  | cons x xs ih =>
      by_cases hx : kws.all (fun k => strContainsSub (strLower x) k)
      · have hstep : scanLibrary kws (x :: xs) none =
            scanLibrary kws xs (some x) := by
          simp [scanLibrary, hx]
        have hfil : libraryMatches (x :: xs) kws =
            x :: libraryMatches xs kws := by
          simp [libraryMatches, hx]
        rw [hstep, hfil]
        cases hm : libraryMatches xs kws with
        | nil => exact (scanLibrary_some_acc kws xs x).1 hm
        | cons y ys => exact (scanLibrary_some_acc kws xs x).2 (by simp [hm])
      · have hstep : scanLibrary kws (x :: xs) none =
            scanLibrary kws xs none := by
          simp [scanLibrary, hx]
        have hfil : libraryMatches (x :: xs) kws = libraryMatches xs kws := by
          simp [libraryMatches, hx]
        rw [hstep, hfil]
        exact ih

/-- Both blocks of the view-dependent branch succeed, with one row per
zipped sample and every index within the four-row tables. -/
theorem vd_blocks {E : Type} (enc : String → E) (cfg : Config) (p : String)
    (ele azi dis : List ℚ) (hvd : cfg.view_dependent_prompting = true) :
    ∃ idxs t u,
      directionIndices (buildState enc cfg p) (zip3 ele azi dis) =
        some idxs ∧
      (∀ i ∈ idxs, i < 4) ∧
      idxs.length = (zip3 ele azi dis).length ∧
      condEmbeddings (buildState enc cfg p) ele azi dis = some t ∧
      uncondEmbeddings (buildState enc cfg p) ele azi dis = some u ∧
      t.length = idxs.length ∧ u.length = idxs.length ∧
      call (buildState enc cfg p) ele azi dis = some (t ++ u) := by
  obtain ⟨hlen1, hlen2, -⟩ := buildState_vd_length enc cfg p
  have hidx := directionIndices_buildState enc cfg p (zip3 ele azi dis)
  set idxs := (zip3 ele azi dis).map fun s => rawDirectionIdx cfg s.1 s.2.1
    with hidxs
  have hbound : ∀ i ∈ idxs, i < 4 := by
    intro i hi
    obtain ⟨s, -, rfl⟩ := List.mem_map.mp hi
    exact rawDirectionIdx_lt cfg s.1 s.2.1
  obtain ⟨t, ht, htlen⟩ := gather_some
    (buildState enc cfg p).text_embeddings_vd idxs
    (fun i hi => hlen1 ▸ hbound i hi)
  obtain ⟨u, hu, hulen⟩ := gather_some
    (buildState enc cfg p).uncond_text_embeddings_vd idxs
    (fun i hi => hlen2 ▸ hbound i hi)
  have hcfg : (buildState enc cfg p).cfg.view_dependent_prompting = true :=
    (buildState_cfg enc cfg p).symm ▸ hvd
  have hcond : condEmbeddings (buildState enc cfg p) ele azi dis = some t := by
    rw [condEmbeddings, if_pos hcfg, hidx, Option.bind, ht]
  have huncond : uncondEmbeddings (buildState enc cfg p) ele azi dis =
      some u := by
    rw [uncondEmbeddings, if_pos hcfg, hidx, Option.bind, hu]
  refine ⟨idxs, t, u, hidx, hbound, by simp [hidxs], hcond, huncond,
    htlen, hulen, ?_⟩
  rw [call, hcond, huncond]

/-- A pair drawn from a list zipped with its own image under `f` relates
its components by `f`. -/
theorem mem_zip_map_self {α β : Type} (f : α → β) :
    ∀ (l : List α) (q : α × β), q ∈ l.zip (l.map f) → q.2 = f q.1
  | [], _, hq => by simp at hq
  | x :: xs, q, hq => by
      rcases List.mem_cons.mp (by simpa [List.zip_cons_cons] using hq)
        with h | h
      · rw [h]
      · exact mem_zip_map_self f xs q h

/-! ## Claim theorems -/

/-- C1: for every configured processor and equal-length input batches of
size `B ≥ 1`, `__call__` succeeds with `2B` output rows, the first `B`
being the conditional block and the last `B` the unconditional block, in
both the view-dependent and non-view-dependent modes. -/
theorem C1_call_output_shape {E : Type} (enc : String → E)
    (library : List String) (cfg : Config) (st : ProcessorState E)
    (ele azi dis : List ℚ)
    (hconf : configure enc library cfg = Except.ok st)
    (hlen1 : azi.length = ele.length) (hlen2 : dis.length = ele.length)
    (_hB : 1 ≤ ele.length) :
    ∃ out, call st ele azi dis = some out ∧
      out.length = 2 * ele.length ∧
      condEmbeddings st ele azi dis = some (out.take ele.length) ∧
      uncondEmbeddings st ele azi dis = some (out.drop ele.length) := by
  obtain ⟨p, hp, rfl⟩ := configure_ok hconf
  have hsam : (zip3 ele azi dis).length = ele.length := by
    simp [zip3, List.length_zip, hlen1, hlen2]
  by_cases hvd : cfg.view_dependent_prompting
  · obtain ⟨idxs, t, u, -, -, hilen, hcond, huncond, htlen, hulen, hcall⟩ :=
      vd_blocks enc cfg p ele azi dis hvd
    have htB : t.length = ele.length := by rw [htlen, hilen, hsam]
    have huB : u.length = ele.length := by rw [hulen, hilen, hsam]
    refine ⟨t ++ u, hcall, by simp [htB, huB]; ring, ?_, ?_⟩
    · rw [← htB, List.take_left t u, hcond]
    · rw [← htB, List.drop_left t u, huncond]
  · have hvd' : cfg.view_dependent_prompting = false := by
      simpa using hvd
    have hcfg : (buildState enc cfg p).cfg.view_dependent_prompting =
        false := (buildState_cfg enc cfg p).symm ▸ hvd'
    refine ⟨List.replicate ele.length
        (buildState enc cfg p).text_embeddings ++
      List.replicate ele.length
        (buildState enc cfg p).uncond_text_embeddings, ?_, ?_, ?_, ?_⟩ <;>
      simp [call, condEmbeddings, uncondEmbeddings, hcfg, two_mul,
        List.take_left', List.drop_left']

/-- C5: every sample whose elevation exceeds the overhead threshold is
assigned the `overhead` direction index (the last table entry, written
last in the overwrite loop), whatever its azimuth. -/
theorem C5_overhead_wins {E : Type} (enc : String → E)
    (library : List String) (cfg : Config) (st : ProcessorState E)
    (ele azi dis : List ℚ)
    (hconf : configure enc library cfg = Except.ok st) :
    ∃ idxs, directionIndices st (zip3 ele azi dis) = some idxs ∧
      dictLookup st.direction2idx "overhead" = some 3 ∧
      ∀ q ∈ (zip3 ele azi dis).zip idxs,
        cfg.overhead_threshold < q.1.1 → q.2 = 3 := by
  obtain ⟨p, hp, rfl⟩ := configure_ok hconf
  refine ⟨_, directionIndices_buildState enc cfg p (zip3 ele azi dis),
    by simp [buildState_direction2idx, dictLookup, List.find?], ?_⟩
  intro q hq hover
  rw [mem_zip_map_self _ _ q hq, rawDirectionIdx, if_pos hover]

/-- C8: with view-dependent prompting disabled, every conditional row of
the output equals the precomputed base conditional embedding and every
unconditional row equals the base unconditional embedding, so all `B`
rows of each block are identical. -/
theorem C8_broadcast {E : Type} (enc : String → E) (library : List String)
    (cfg : Config) (st : ProcessorState E) (ele azi dis : List ℚ)
    (hconf : configure enc library cfg = Except.ok st)
    (hvd : cfg.view_dependent_prompting = false) :
    condEmbeddings st ele azi dis =
      some (List.replicate ele.length st.text_embeddings) ∧
    uncondEmbeddings st ele azi dis =
      some (List.replicate ele.length st.uncond_text_embeddings) := by
  obtain ⟨p, hp, rfl⟩ := configure_ok hconf
  have hcfg : (buildState enc cfg p).cfg.view_dependent_prompting = false :=
    (buildState_cfg enc cfg p).symm ▸ hvd
  simp [condEmbeddings, uncondEmbeddings, hcfg]

/-- C10: after any successful configure, every per-sample direction
index lies below the number of directions, both embedding-table gathers
are in bounds, and the view-dependent branch of `__call__` never fails. -/
theorem C10_indices_in_bounds {E : Type} (enc : String → E)
    (library : List String) (cfg : Config) (st : ProcessorState E)
    (ele azi dis : List ℚ)
    (hconf : configure enc library cfg = Except.ok st)
    (hvd : cfg.view_dependent_prompting = true) :
    ∃ idxs, directionIndices st (zip3 ele azi dis) = some idxs ∧
      (∀ i ∈ idxs, i < st.directions.length) ∧
      ∃ out, call st ele azi dis = some out := by
  obtain ⟨p, hp, rfl⟩ := configure_ok hconf
  obtain ⟨-, -, hdlen⟩ := buildState_vd_length enc cfg p
  obtain ⟨idxs, t, u, hidx, hbound, -, -, -, -, -, hcall⟩ :=
    vd_blocks enc cfg p ele azi dis hvd
  exact ⟨idxs, hidx, fun i hi => hdlen ▸ hbound i hi, t ++ u, hcall⟩

/-- C7: a prompt without the `lib:` prefix passes through the resolver
unchanged and never errors. -/
theorem C7_passthrough (library : List String) (p : String)
    (h : strStartsWith p "lib:" = false) :
    preprocess_prompt library p = Except.ok p := by
  simp [preprocess_prompt, h]

/-- C6: for a `lib:` prompt the resolver splits the lower-cased
remainder on `_` into keywords; a unique library candidate containing
every keyword (case-insensitively) is returned, while zero matches and
two-or-more matches each yield an error and never a non-error value. -/
theorem C6_library_lookup (library : List String) (p : String)
    (hlib : strStartsWith p "lib:" = true) :
    (∀ c, libraryMatches library
        (strSplitUnderscore (strLower (strDrop p 4))) = [c] →
      preprocess_prompt library p = Except.ok c) ∧
    (libraryMatches library
        (strSplitUnderscore (strLower (strDrop p 4))) = [] →
      preprocess_prompt library p =
        Except.error "Cannot find prompt with keywords in library") ∧
    (∀ c₁ c₂ rest, libraryMatches library
        (strSplitUnderscore (strLower (strDrop p 4))) = c₁ :: c₂ :: rest →
      preprocess_prompt library p =
        Except.error "Multiple prompts matched with keywords in library") := by
  have hscan := scanLibrary_none_eq
    (strSplitUnderscore (strLower (strDrop p 4))) library
  refine ⟨?_, ?_, ?_⟩
  · intro c hm
    rw [hm] at hscan
    simp [preprocess_prompt, hlib, hscan]
  · intro hm
    rw [hm] at hscan
    simp [preprocess_prompt, hlib, hscan]
  · intro c₁ c₂ rest hm
    rw [hm] at hscan
    simp [preprocess_prompt, hlib, hscan]

/-- C9: a successful configure leaves as many per-direction embedding
rows as directions, and the name-to-index dict maps the direction names
(pairwise distinct) bijectively onto the row indices `0..n-1`; the state
is never mutated afterwards — `__call__` only reads it. -/
theorem C9_direction_invariants {E : Type} (enc : String → E)
    (library : List String) (cfg : Config) (st : ProcessorState E)
    (hconf : configure enc library cfg = Except.ok st) :
    st.text_embeddings_vd.length = st.directions.length ∧
    st.uncond_text_embeddings_vd.length = st.directions.length ∧
    st.direction2idx.map Prod.fst = st.directions.map DirectionConfig.name ∧
    (st.direction2idx.map Prod.fst).Nodup ∧
    st.direction2idx.map Prod.snd = List.range st.directions.length := by
  obtain ⟨p, hp, rfl⟩ := configure_ok hconf
  obtain ⟨h1, h2, h3⟩ := buildState_vd_length enc cfg p
  refine ⟨by rw [h1, h3], by rw [h2, h3], ?_, ?_, ?_⟩
  · rw [buildState_direction2idx, buildState_direction_names]; decide
  · rw [buildState_direction2idx]; decide
  · rw [buildState_direction2idx, h3]; decide

/-- C3 counterexample: with negative prompt `"lib:burger"` configure
succeeds and stores the string verbatim, although the resolver would map
it to the library entry `"a hamburger"` — the negative prompt is never
passed through the resolver. -/
theorem C3_counterexample :
    configure (fun s => s) demoLibrary cfgNegLib = Except.ok stNegLib ∧
    cfgNegLib.negative_prompt = "lib:burger" ∧
    preprocess_prompt demoLibrary cfgNegLib.negative_prompt =
      Except.ok "a hamburger" ∧
    stNegLib.negative_prompt = "lib:burger" ∧
    stNegLib.negative_prompt ≠ "a hamburger" := by
  refine ⟨rfl, rfl, rfl, rfl, by decide⟩

/-- C3 (amended): configure resolves only the prompt through the
resolver; the negative prompt is taken verbatim from the configuration
and is never looked up in the library, whatever its prefix. -/
theorem C3_negative_prompt_verbatim {E : Type} (enc : String → E)
    (library : List String) (cfg : Config) (st : ProcessorState E)
    (hconf : configure enc library cfg = Except.ok st) :
    st.negative_prompt = cfg.negative_prompt ∧
    preprocess_prompt library cfg.prompt = Except.ok st.prompt := by
  obtain ⟨p, hp, rfl⟩ := configure_ok hconf
  rw [buildState_negative_prompt, buildState_prompt]
  exact ⟨rfl, hp⟩

/-- C2 counterexample: in front-aware mode with prompt `"lib:burger"`
(resolved by the library to `"a hamburger"`), the string handed to the
embedding step for the `side` direction interpolates the raw config
prompt, not the resolver output (observable with the identity
encoder). -/
theorem C2_counterexample :
    configure (fun s => s) demoLibrary cfgFrontLib = Except.ok stFrontLib ∧
    stFrontLib.prompt = "a hamburger" ∧
    stFrontLib.text_embeddings_vd.head? = some "side view of  lib:burger " ∧
    stFrontLib.text_embeddings_vd.head? ≠
      some ("side view of " ++ " " ++ stFrontLib.prompt ++ " ") := by
  refine ⟨rfl, rfl, by decide, by decide⟩

/-- C2 (amended): the per-direction strings handed to the embedding step
append the fragment to the resolved base prompt in suffix mode, but in
front-aware mode they prepend the fragment to the raw configured prompt
(`cfg.prompt`), not to the resolver output. -/
theorem C2_vd_prompt_strings {E : Type} (enc : String → E)
    (library : List String) (cfg : Config) (st : ProcessorState E)
    (hconf : configure enc library cfg = Except.ok st) :
    preprocess_prompt library cfg.prompt = Except.ok st.prompt ∧
    (cfg.view_dependent_prompt_front = true →
      st.text_embeddings_vd = (directionsFront cfg).map
        fun d => enc (d.prompt ++ " " ++ cfg.prompt ++ " ")) ∧
    (cfg.view_dependent_prompt_front = false →
      st.text_embeddings_vd = (directionsSide cfg).map
        fun d => enc (st.prompt ++ " " ++ d.prompt)) := by
  obtain ⟨p, hp, rfl⟩ := configure_ok hconf
  refine ⟨by rw [buildState_prompt]; exact hp, ?_, ?_⟩ <;>
    intro h <;>
    simp [buildState, h, get_text_embeddings, buildState_prompt]

/-- C4 counterexample: all thresholds positive
(`front = 150, back = 45, overhead = 60`), sample with azimuth `140`
strictly inside `(-150, 150)` and elevation `0 ≤ 60`, yet the computed
index is `2` (`back`), not the front index `1`: the back write follows
the front write in table order and both sectors overlap at azimuth
`140`. -/
theorem C4_counterexample :
    configure (fun s => s) ([] : List String) cfgWide =
      Except.ok stWide ∧
    (0 < cfgWide.front_threshold ∧ 0 < cfgWide.back_threshold ∧
      0 < cfgWide.overhead_threshold) ∧
    (-cfgWide.front_threshold < 140 ∧ (140 : ℚ) < cfgWide.front_threshold ∧
      (0 : ℚ) ≤ cfgWide.overhead_threshold) ∧
    dictLookup stWide.direction2idx "front" = some 1 ∧
    sampleDirectionIdx stWide 0 140 1 = some 2 ∧
    (2 : ℕ) ≠ 1 := by
  refine ⟨rfl, by norm_num [cfgWide], by norm_num [cfgWide],
    by decide, ?_, by norm_num⟩
  rw [show stWide = buildState (fun s => s) cfgWide "a hamburger" from rfl,
    sampleDirectionIdx_buildState]
  norm_num [rawDirectionIdx, cfgWide]

/-- C4 (amended): for positive thresholds additionally satisfying
`front_threshold + back_threshold ≤ 180` (so the front and back sectors
cannot overlap), every sample with azimuth strictly inside
`(-front_threshold, front_threshold)` and elevation at most the overhead
threshold receives the `front` direction index. -/
theorem C4_front_index {E : Type} (enc : String → E)
    (library : List String) (cfg : Config) (st : ProcessorState E)
    (ele azi dis : List ℚ)
    (hconf : configure enc library cfg = Except.ok st)
    (_hft : 0 < cfg.front_threshold) (_hbt : 0 < cfg.back_threshold)
    (_hot : 0 < cfg.overhead_threshold)
    (hsum : cfg.front_threshold + cfg.back_threshold ≤ 180) :
    ∃ idxs, directionIndices st (zip3 ele azi dis) = some idxs ∧
      dictLookup st.direction2idx "front" = some 1 ∧
      ∀ q ∈ (zip3 ele azi dis).zip idxs,
        -cfg.front_threshold < q.1.2.1 → q.1.2.1 < cfg.front_threshold →
        q.1.1 ≤ cfg.overhead_threshold → q.2 = 1 := by
  obtain ⟨p, hp, rfl⟩ := configure_ok hconf
  refine ⟨_, directionIndices_buildState enc cfg p (zip3 ele azi dis),
    by rw [buildState_direction2idx]; decide, ?_⟩
  intro q hq h1 h2 h3
  rw [mem_zip_map_self _ _ q hq, rawDirectionIdx]
  rw [if_neg (by linarith), if_neg ?_, if_pos ⟨h1, h2⟩]
  rintro (hb | hb) <;> linarith

/-! ## Witnesses: each theorem above with hypotheses, applied at a
concrete configuration -/

/-- Witness for C1: default configuration, singleton batch. -/
theorem C1_witness :
    ∃ out, call stBase [0] [0] [1] = some out ∧
      out.length = 2 * ([0] : List ℚ).length ∧
      condEmbeddings stBase [0] [0] [1] =
        some (out.take ([0] : List ℚ).length) ∧
      uncondEmbeddings stBase [0] [0] [1] =
        some (out.drop ([0] : List ℚ).length) :=
  C1_call_output_shape (fun s => s) [] cfgBase stBase [0] [0] [1]
    rfl rfl rfl (by decide)

/-- Witness for the amended C2 at the front-aware, library-resolved
configuration. -/
theorem C2_witness :
    preprocess_prompt demoLibrary cfgFrontLib.prompt =
      Except.ok stFrontLib.prompt ∧
    (cfgFrontLib.view_dependent_prompt_front = true →
      stFrontLib.text_embeddings_vd = (directionsFront cfgFrontLib).map
        fun d => d.prompt ++ " " ++ cfgFrontLib.prompt ++ " ") ∧
    (cfgFrontLib.view_dependent_prompt_front = false →
      stFrontLib.text_embeddings_vd = (directionsSide cfgFrontLib).map
        fun d => stFrontLib.prompt ++ " " ++ d.prompt) :=
  C2_vd_prompt_strings (fun s => s) demoLibrary cfgFrontLib stFrontLib rfl

/-- Witness for the amended C3 at the library-keyed negative prompt. -/
theorem C3_witness :
    stNegLib.negative_prompt = cfgNegLib.negative_prompt ∧
    preprocess_prompt demoLibrary cfgNegLib.prompt =
      Except.ok stNegLib.prompt :=
  C3_negative_prompt_verbatim (fun s => s) demoLibrary cfgNegLib stNegLib rfl

/-- Witness for the amended C4: default thresholds
(`45 + 45 ≤ 180`), front-facing sample. -/
theorem C4_witness :
    ∃ idxs, directionIndices stBase (zip3 [0] [0] [1]) = some idxs ∧
      dictLookup stBase.direction2idx "front" = some 1 ∧
      ∀ q ∈ (zip3 ([0] : List ℚ) [0] [1]).zip idxs,
        -cfgBase.front_threshold < q.1.2.1 →
        q.1.2.1 < cfgBase.front_threshold →
        q.1.1 ≤ cfgBase.overhead_threshold → q.2 = 1 :=
  C4_front_index (fun s => s) [] cfgBase stBase [0] [0] [1] rfl
    (by decide) (by decide) (by decide) (by norm_num [cfgBase])

/-- Witness for C5: overhead sample under the default configuration. -/
theorem C5_witness :
    ∃ idxs, directionIndices stBase (zip3 [70] [0] [1]) = some idxs ∧
      dictLookup stBase.direction2idx "overhead" = some 3 ∧
      ∀ q ∈ (zip3 ([70] : List ℚ) [0] [1]).zip idxs,
        cfgBase.overhead_threshold < q.1.1 → q.2 = 3 :=
  C5_overhead_wins (fun s => s) [] cfgBase stBase [70] [0] [1] rfl

/-- Witness for C6 at the one-entry demo library: `"lib:burger"` keys
the unique match `"a hamburger"`. -/
theorem C6_witness :
    (∀ c, libraryMatches demoLibrary
        (strSplitUnderscore (strLower (strDrop "lib:burger" 4))) = [c] →
      preprocess_prompt demoLibrary "lib:burger" = Except.ok c) ∧
    (libraryMatches demoLibrary
        (strSplitUnderscore (strLower (strDrop "lib:burger" 4))) = [] →
      preprocess_prompt demoLibrary "lib:burger" =
        Except.error "Cannot find prompt with keywords in library") ∧
    (∀ c₁ c₂ rest, libraryMatches demoLibrary
        (strSplitUnderscore (strLower (strDrop "lib:burger" 4))) =
          c₁ :: c₂ :: rest →
      preprocess_prompt demoLibrary "lib:burger" =
        Except.error "Multiple prompts matched with keywords in library") :=
  C6_library_lookup demoLibrary "lib:burger" rfl

/-- Witness for C7: a plain prompt passes through. -/
theorem C7_witness :
    preprocess_prompt demoLibrary "a pizza" = Except.ok "a pizza" :=
  C7_passthrough demoLibrary "a pizza" rfl

/-- Witness for C8: view-dependent prompting off, two-sample batch. -/
theorem C8_witness :
    condEmbeddings stNoVd [0, 10] [0, 90] [1, 1] =
      some (List.replicate ([0, 10] : List ℚ).length
        stNoVd.text_embeddings) ∧
    uncondEmbeddings stNoVd [0, 10] [0, 90] [1, 1] =
      some (List.replicate ([0, 10] : List ℚ).length
        stNoVd.uncond_text_embeddings) :=
  C8_broadcast (fun s => s) [] cfgNoVd stNoVd [0, 10] [0, 90] [1, 1]
    rfl rfl

/-- Witness for C9 at the default configuration. -/
theorem C9_witness :
    stBase.text_embeddings_vd.length = stBase.directions.length ∧
    stBase.uncond_text_embeddings_vd.length = stBase.directions.length ∧
    stBase.direction2idx.map Prod.fst =
      stBase.directions.map DirectionConfig.name ∧
    (stBase.direction2idx.map Prod.fst).Nodup ∧
    stBase.direction2idx.map Prod.snd =
      List.range stBase.directions.length :=
  C9_direction_invariants (fun s => s) [] cfgBase stBase rfl

/-- Witness for C10: default configuration, one side-view sample. -/
theorem C10_witness :
    ∃ idxs, directionIndices stBase (zip3 [0] [90] [1]) = some idxs ∧
      (∀ i ∈ idxs, i < stBase.directions.length) ∧
      ∃ out, call stBase [0] [90] [1] = some out :=
  C10_indices_in_bounds (fun s => s) [] cfgBase stBase [0] [90] [1]
    rfl rfl

end ImageDream
